import Mathlib

/-!
Verification of the `kms.py` TTS batch-orchestration script.

The script is embedded shallowly:

* Randomness (`random.randint`, `random.sample`, `random.shuffle`,
  `uuid.uuid4`) is modelled by an explicit stream of natural numbers
  `g : Nat → Nat` consumed at an explicit counter position, together with
  freshness hypotheses where `uuid4` uniqueness matters.
* The filesystem is modelled by an explicit `FS` record (a list of existing
  directories and a list of existing files); paths are structured
  `(directory, filename)` pairs, mirroring `os.path.join`.
* The external `tts` subprocess is modelled by an oracle giving its exit
  code per invocation; on exit code `0` it writes the configured output
  file, on a nonzero exit code it changes nothing.
* Python exceptions are modelled by `Option`/explicit error constructors;
  `str.strip()` is modelled by `String.trim`.
-/

namespace Kms

/-- A structured file path, mirroring `os.path.join(dir, name)`. -/
structure Path where
  dir : String
  name : String
deriving DecidableEq, Repr, Inhabited

/-- Render a structured path as the string Python would pass around. -/
def pathStr (p : Path) : String :=
  if p.dir = "" then p.name else p.dir ++ "/" ++ p.name

/-- The `TTSConfig` dataclass of `kms.py` (lines 9-19). `speaker_wav` is kept
as a plain list (`[]` plays the role of Python's falsy `None`/`[]`, which the
command builder treats identically). -/
structure TTSConfig where
  model_name : String
  language_idx : String
  device : String
  vocoder_name : Option String := none
  speaker_wav : List String := []
  use_cuda : Bool := false
  out_path : Path := ⟨"", "tts_output.wav"⟩
  source_wav : Option String := none
  target_wav : Option String := none
deriving DecidableEq, Repr

/-- Python truthiness of an `Optional[str]` field: `None` and `""` are falsy. -/
def optTruthy (o : Option String) : Bool :=
  !(o.getD "").isEmpty

/-- `random.randint(lo, hi)`: a uniform draw from `[lo, hi]`, modelled by one
stream value `n`; raises (`none`) when `lo > hi`. -/
def randint (lo hi n : Nat) : Option Nat :=
  if lo ≤ hi then some (lo + n % (hi + 1 - lo)) else none

/-- `random.sample(pop, k)`: draw `k` elements without replacement, modelled
by repeatedly picking the `g c % pop.length`-th remaining element. The
`k > pop.length` error case is handled by the callers (the script either caps
`k` at `pop.length` or propagates a `ValueError`). -/
def randSample {α : Type} [Inhabited α] (g : Nat → Nat) : Nat → Nat → List α → List α
  | _, 0, _ => []
  | _, _ + 1, [] => []
  | c, k + 1, x :: xs =>
    let pop := x :: xs
    let i := g c % pop.length
    pop.getD i default :: randSample g (c + 1) k (pop.eraseIdx i)

theorem randSample_length {α : Type} [Inhabited α] (g : Nat → Nat) :
    ∀ (k : Nat) (c : Nat) (pop : List α), k ≤ pop.length →
      (randSample g c k pop).length = k := by
  intro k
  induction k with
  | zero => intro c pop _; simp [randSample]
  | succ k ih =>
    intro c pop hk
    match pop with
    | [] => simp at hk
    | x :: xs =>
      have hi : g c % (xs.length + 1) < xs.length + 1 := Nat.mod_lt _ (by omega)
      have hlen : ((x :: xs).eraseIdx (g c % (xs.length + 1))).length = xs.length := by
        rw [List.length_eraseIdx]
        simp [hi]
      simp only [List.length_cons] at hk
      simp only [randSample, List.length_cons]
      rw [ih (c + 1) _ (by rw [hlen]; omega)]

/-- A list keeps its elements when one position is pulled to the front. -/
theorem perm_cons_eraseIdx {α : Type} :
    ∀ (l : List α) (i : Nat) (hi : i < l.length),
      (l.get ⟨i, hi⟩ :: l.eraseIdx i).Perm l := by
  intro l
  induction l with
  | nil => intro i hi; simp at hi
  | cons x xs ih =>
    intro i hi
    match i with
    | 0 => simp [List.eraseIdx]
    | i + 1 =>
      simp only [List.length_cons, Nat.add_lt_add_iff_right] at hi
      have h := ih i hi
      have hstep : (x :: xs).get ⟨i + 1, by simp [Nat.add_lt_add_iff_right, hi]⟩ ::
          (x :: xs).eraseIdx (i + 1) = xs.get ⟨i, hi⟩ :: x :: xs.eraseIdx i := rfl
      rw [hstep]
      exact (List.Perm.swap x _ _).trans (List.Perm.cons x h)

theorem randSample_subperm {α : Type} [Inhabited α] (g : Nat → Nat) :
    ∀ (k : Nat) (c : Nat) (pop : List α), k ≤ pop.length →
      (randSample g c k pop).Subperm pop := by
  intro k
  induction k with
  | zero => intro c pop _; simp [randSample]
  | succ k ih =>
    intro c pop hk
    match pop with
    | [] => simp at hk
    | x :: xs =>
      simp only [randSample]
      have hi : g c % (x :: xs).length < (x :: xs).length :=
        Nat.mod_lt _ (by simp)
      have hlen : ((x :: xs).eraseIdx (g c % (x :: xs).length)).length
          = (x :: xs).length - 1 := by
        rw [List.length_eraseIdx, if_pos hi]
      have hrec : (randSample g (c + 1) k
          ((x :: xs).eraseIdx (g c % (x :: xs).length))).Subperm
          ((x :: xs).eraseIdx (g c % (x :: xs).length)) := by
        apply ih
        rw [hlen]
        simp only [List.length_cons] at hk ⊢
        omega
      have hgetD : (x :: xs).getD (g c % (x :: xs).length) default
          = (x :: xs).get ⟨g c % (x :: xs).length, hi⟩ := by
        rw [List.getD_eq_getElem _ _ hi]
        simp
      rw [hgetD]
      have hcons : ((x :: xs).get ⟨g c % (x :: xs).length, hi⟩ ::
          randSample g (c + 1) k
            ((x :: xs).eraseIdx (g c % (x :: xs).length))).Subperm
          ((x :: xs).get ⟨g c % (x :: xs).length, hi⟩ ::
            (x :: xs).eraseIdx (g c % (x :: xs).length)) :=
        (List.subperm_cons _).mpr hrec
      exact hcons.trans (perm_cons_eraseIdx (x :: xs) _ hi).subperm

/-- Sampling the whole population is a permutation of it: the model of
`random.shuffle`. -/
theorem randSample_perm {α : Type} [Inhabited α] (g : Nat → Nat) (c : Nat)
    (pop : List α) : (randSample g c pop.length pop).Perm pop := by
  have hsub := randSample_subperm g pop.length c pop (Nat.le_refl _)
  exact hsub.perm_of_length_le
    (by rw [randSample_length g pop.length c pop (Nat.le_refl _)])

/-- `random.shuffle(l)`: an in-place uniform permutation, modelled as drawing
the whole list without replacement. -/
def shuffle {α : Type} [Inhabited α] (g : Nat → Nat) (l : List α) : List α :=
  randSample g 0 l.length l

/-- The filesystem: the set of existing directories and existing files. -/
structure FS where
  dirs : List String
  files : List Path
deriving DecidableEq, Repr

/-- The directory-d files of the filesystem. -/
def filesInDir (fs : FS) (d : String) : List Path :=
  fs.files.filter (fun q => q.dir == d)

/-- The `glob.glob(os.path.join(dir, "*.wav"))` discovery of `get_speaker_wav`
(line 38): the files of `input_wav_dir` (non-recursive) whose name matches the
`*.wav` pattern. -/
def globWav (fs : FS) (input_wav_dir : String) : List Path :=
  (filesInDir fs input_wav_dir).filter (fun p => p.name.endsWith ".wav")

/-- `get_speaker_wav` (lines 37-41): glob the input directory for wav files
and shuffle the result. -/
def get_speaker_wav (g : Nat → Nat) (fs : FS) (input_wav_dir : String) :
    List Path :=
  shuffle g (globWav fs input_wav_dir)

/-- The text argument as passed on the command line (line 45): the script
wraps the utterance in literal double quotes. -/
def quoteText (text : String) : String :=
  "\"" ++ text ++ "\""

/-- The argument list built by `run_tts_command` (lines 45-51): a fixed head,
then each optional block appended exactly when its config field is truthy. -/
def build_command (config : TTSConfig) (text : String) : List String :=
  ["tts", "--model_name", config.model_name, "--text", quoteText text,
    "--language_idx", config.language_idx, "--out_path", pathStr config.out_path,
    "--device", config.device]
  ++ (if optTruthy config.vocoder_name then
        ["--vocoder_name", config.vocoder_name.getD ""] else [])
  ++ (if config.speaker_wav.isEmpty then []
      else config.speaker_wav.flatMap (fun wav => ["--speaker_wav", wav]))
  ++ (if config.use_cuda then ["--use_cuda"] else [])
  ++ (if optTruthy config.source_wav then
        ["--source_wav", config.source_wav.getD ""] else [])
  ++ (if optTruthy config.target_wav then
        ["--target_wav", config.target_wav.getD ""] else [])

/-- The return value of `run_tts_command` (lines 53-63) as a function of the
external process's exit code: the configured output path on exit code `0`,
`None` (after logging) otherwise. -/
def run_tts_command (config : TTSConfig) (exitCode : Nat) : Option Path :=
  if exitCode = 0 then some config.out_path else none

/-- The filesystem effect of one external `tts` invocation: on success the
tool writes the configured output file; on failure it writes nothing. -/
def tts_exec (fs : FS) (config : TTSConfig) (exitCode : Nat) : FS :=
  if exitCode = 0 then { fs with files := config.out_path :: fs.files } else fs

/-- The idempotent `if not os.path.exists(dir): os.makedirs(dir)` of
`move_output_file` (line 67). -/
def mkdirFS (fs : FS) (d : String) : FS :=
  if d ∈ fs.dirs then fs else { fs with dirs := d :: fs.dirs }

/-- Outcome of `move_output_file`: a normal return carrying the new
filesystem and the returned path-or-`None`, or a re-raised exception
(`err`), which the script deliberately propagates (lines 77-79). -/
inductive MoveResult where
  | ok (fs : FS) (result : Option Path)
  | err (fs : FS)
deriving DecidableEq, Repr

/-- The filesystem after a `move_output_file` call, in either outcome. -/
def MoveResult.fs : MoveResult → FS
  | .ok fs _ => fs
  | .err fs => fs

/-- `move_output_file` (lines 65-79). `fresh` models the `uuid.uuid4()` draw;
`renameRaises` is the oracle for an unexpected `os.rename` failure, which the
`except` block logs and re-raises. The destination directory is created
before the source-existence check, exactly as in the source. -/
def move_output_file (fs : FS) (output_path : Path) (output_wav_dir : String)
    (fresh : String) (renameRaises : Bool) : MoveResult :=
  if output_path ∈ (mkdirFS fs output_wav_dir).files then
    if renameRaises then .err (mkdirFS fs output_wav_dir)
    else
      .ok { mkdirFS fs output_wav_dir with
              files := (⟨output_wav_dir, fresh ++ ".wav"⟩ : Path) ::
                (mkdirFS fs output_wav_dir).files.erase output_path }
        (some ⟨output_wav_dir, fresh ++ ".wav"⟩)
  else .ok (mkdirFS fs output_wav_dir) none

/-- `generate_random_text` (lines 81-90): read the word file's lines, sample
`word_count` of them without replacement (raising `ValueError`, i.e. `none`,
when the count exceeds the number of lines), strip each and join with single
spaces in sample order. -/
def generate_random_text (g : Nat → Nat) (c : Nat) (words : List String)
    (word_count : Nat) : Option String :=
  if word_count ≤ words.length then
    some (String.intercalate " "
      ((randSample g c word_count words).map String.trim))
  else none

/-- One synthesis attempt: the speaker-reference list installed in the config
and the utterance text passed to the external tool. -/
structure Job where
  speaker_wav : List String
  text : String
deriving DecidableEq, Repr, Inhabited

/-- The merged-voice pass of `generate_mode` (lines 104-110): per shot, draw
`num_files ∈ [min_merge, max_merge]`, then sample
`min(num_files, pool.length)` pool files as the speaker-reference list. `c`
is the random-stream position. -/
def mergedJobs (g : Nat → Nat) (min_merge max_merge : Nat) (text : String)
    (pool : List String) : Nat → Nat → Option (List Job)
  | _, 0 => some []
  | c, s + 1 =>
    match randint min_merge max_merge (g c) with
    | none => none
    | some num_files =>
      let k := min num_files pool.length
      let selected := randSample g (c + 1) k pool
      match mergedJobs g min_merge max_merge text pool (c + 1 + k) s with
      | none => none
      | some rest => some (⟨selected, text⟩ :: rest)

/-- `generate_mode` (lines 97-110) as the list of synthesis attempts it runs:
for each pool file, `shots` single-speaker jobs with the fixed text, then the
merged-voice pass. `none` models an uncaught `random.randint` error. -/
def generate_mode (g : Nat → Nat) (shots min_merge max_merge : Nat)
    (text : String) (pool : List String) : Option (List Job) :=
  match mergedJobs g min_merge max_merge text pool 0 shots with
  | none => none
  | some merged =>
    some ((pool.flatMap (fun wav_file => List.replicate shots ⟨[wav_file], text⟩))
      ++ merged)

/-- The text `generate_random_text` produces from stream position `c` in the
non-raising case. -/
def trainTextAt (g : Nat → Nat) (words : List String) (word_count c : Nat) :
    String :=
  String.intercalate " " ((randSample g c word_count words).map String.trim)

/-- The inner shot loop of `train_mode` (lines 115-118) for one speaker file:
each shot first samples a fresh random text (consuming `word_count` stream
draws), stopping with an error flag when sampling raises. Returns the jobs
run, the final stream position, and whether the loop completed. -/
def train_shots (g : Nat → Nat) (words : List String) (word_count : Nat)
    (wav_file : String) : Nat → Nat → List Job × Nat × Bool
  | c, 0 => ([], c, true)
  | c, s + 1 =>
    match generate_random_text g c words word_count with
    | none => ([], c, false)
    | some t =>
      let r := train_shots g words word_count wav_file (c + word_count) s
      (⟨[wav_file], t⟩ :: r.1, r.2)

/-- `train_mode` (lines 112-118) as the list of synthesis attempts it runs,
with the final stream position and a completion flag (`false` when a
`generate_random_text` error aborted the run). -/
def train_mode (g : Nat → Nat) (words : List String) (word_count shots : Nat) :
    Nat → List String → List Job × Nat × Bool
  | c, [] => ([], c, true)
  | c, wav_file :: rest =>
    let r := train_shots g words word_count wav_file c shots
    if r.2.2 then
      let r2 := train_mode g words word_count shots r.2.1 rest
      (r.1 ++ r2.1, r2.2)
    else (r.1, r.2.1, false)

/-- `process_wav_file` (lines 92-95) together with the external tool's
filesystem effect: run `tts`, and on a returned path move it into the output
directory; on a `None` return, do nothing further. -/
def process_wav_file (fs : FS) (config : TTSConfig) (output_wav_dir : String)
    (exitCode : Nat) (fresh : String) (renameRaises : Bool) : MoveResult :=
  match run_tts_command config exitCode with
  | some output_path =>
    move_output_file (tts_exec fs config exitCode) output_path output_wav_dir
      fresh renameRaises
  | none => .ok (tts_exec fs config exitCode) none

/-- Per-job oracle data for a batch: the job's config, the external tool's
exit code, the `uuid4` draw, and whether `os.rename` raises. -/
structure JobRun where
  config : TTSConfig
  exitCode : Nat
  fresh : String
  renameRaises : Bool

/-- Outcome of a batch: per-job results in order, and the final filesystem;
`err` marks a propagated relocation exception aborting the batch. -/
inductive BatchResult where
  | ok (fs : FS) (results : List (Option Path))
  | err (fs : FS) (results : List (Option Path))
deriving Repr

/-- The driver loop shared by both modes: each job runs `process_wav_file`;
a job's failure (a `none` result) does not stop the batch, only a propagated
relocation exception does. -/
def run_batch (output_wav_dir : String) : FS → List JobRun → BatchResult
  | fs, [] => .ok fs []
  | fs, j :: rest =>
    match process_wav_file fs j.config output_wav_dir j.exitCode j.fresh
        j.renameRaises with
    | .err fs1 => .err fs1 []
    | .ok fs1 res =>
      match run_batch output_wav_dir fs1 rest with
      | .ok fs2 results => .ok fs2 (res :: results)
      | .err fs2 results => .err fs2 (res :: results)

/-- The parsed command-line arguments of `main` (lines 124-138). There is no
language option. -/
structure Args where
  input_wav_dir : String
  output_wav_dir : String
  mode : String
  text : Option String
  dict_file : Option String
  shots : Nat
  word_count : Nat
  min_merge : Nat
  max_merge : Nat
  device : String
  model_name : String
  vocoder_name : Option String
  use_cuda : Bool
  source_wav : Option String
  target_wav : Option String
deriving Repr

/-- The `TTSConfig` constructed by `main` (line 142): `language_idx` is the
literal `"en"`; `speaker_wav` and `out_path` keep the dataclass defaults. -/
def mkConfig (args : Args) : TTSConfig :=
  { model_name := args.model_name
    language_idx := "en"
    device := args.device
    vocoder_name := args.vocoder_name
    use_cuda := args.use_cuda
    source_wav := args.source_wav
    target_wav := args.target_wav }

/-- `mkdirFS` never touches the files. -/
theorem mkdirFS_files (fs : FS) (d : String) : (mkdirFS fs d).files = fs.files := by
  unfold mkdirFS
  split <;> rfl

/-- `mkdirFS` guarantees the directory exists afterwards. -/
theorem mem_mkdirFS_dirs (fs : FS) (d : String) : d ∈ (mkdirFS fs d).dirs := by
  unfold mkdirFS
  split
  · assumption
  · exact List.mem_cons_self _ _

/-- Claim C8: `get_speaker_wav` returns exactly the audio files matching the
`*.wav` pattern in the input directory (non-recursive): the returned list is
a permutation of the discovered set, so the shuffle adds, drops and
duplicates nothing. -/
theorem get_speaker_wav_is_perm_of_glob (g : Nat → Nat) (fs : FS)
    (input_wav_dir : String) :
    (get_speaker_wav g fs input_wav_dir).Perm (globWav fs input_wav_dir) ∧
    ∀ p : Path, p ∈ get_speaker_wav g fs input_wav_dir ↔
      (p ∈ fs.files ∧ p.dir = input_wav_dir ∧ p.name.endsWith ".wav" = true) := by
  have hperm : (get_speaker_wav g fs input_wav_dir).Perm
      (globWav fs input_wav_dir) := by
    unfold get_speaker_wav shuffle
    exact randSample_perm g 0 _
  refine ⟨hperm, fun p => ?_⟩
  rw [hperm.mem_iff]
  simp only [globWav, filesInDir, List.mem_filter, beq_iff_eq, and_assoc]

/-- Claim C9: the language code handed to the external tool is always the
constant `"en"`: `main` hardcodes it, no parsed argument feeds it, and the
built command carries it (after `--language_idx`) for every argument vector
and speaker-list override. -/
theorem language_idx_always_en (args : Args) (text : String)
    (spk : List String) :
    (mkConfig args).language_idx = "en" ∧
    (build_command { mkConfig args with speaker_wav := spk } text).getD 5 ""
      = "--language_idx" ∧
    (build_command { mkConfig args with speaker_wav := spk } text).getD 6 ""
      = "en" := by
  refine ⟨rfl, ?_, ?_⟩ <;>
    simp [build_command, mkConfig, List.getD_cons_succ, List.getD_cons_zero]

/-- Claim C10: the relocator creates the destination directory before the
source-existence check: even when the expected output file is missing and the
call returns the absence signal, the destination directory has been created
(a filesystem change on a failed relocation). -/
theorem move_output_file_mkdir_before_check (fs : FS) (output_path : Path)
    (output_wav_dir fresh : String) (renameRaises : Bool)
    (hmiss : output_path ∉ fs.files) :
    move_output_file fs output_path output_wav_dir fresh renameRaises
      = .ok (mkdirFS fs output_wav_dir) none ∧
    output_wav_dir ∈ (mkdirFS fs output_wav_dir).dirs ∧
    (output_wav_dir ∉ fs.dirs →
      (mkdirFS fs output_wav_dir).dirs = output_wav_dir :: fs.dirs) ∧
    ∀ (fs2 : FS) (p2 : Path) (rr2 : Bool),
      output_wav_dir ∈ (move_output_file fs2 p2 output_wav_dir fresh rr2).fs.dirs := by
  refine ⟨?_, mem_mkdirFS_dirs fs output_wav_dir, ?_, ?_⟩
  · unfold move_output_file
    rw [if_neg]
    rw [mkdirFS_files]
    exact hmiss
  · intro hnd
    unfold mkdirFS
    rw [if_neg hnd]
  · intro fs2 p2 rr2
    unfold move_output_file
    split
    · split
      · exact mem_mkdirFS_dirs fs2 output_wav_dir
      · exact mem_mkdirFS_dirs fs2 output_wav_dir
    · exact mem_mkdirFS_dirs fs2 output_wav_dir

/-- Witness for C10 at a concrete filesystem. -/
theorem move_output_file_mkdir_before_check_witness :
    (⟨"", "tts_output.wav"⟩ : Path) ∉ (⟨[], []⟩ : FS).files ∧
    (move_output_file ⟨[], []⟩ ⟨"", "tts_output.wav"⟩ "out" "u1" false
      = .ok (mkdirFS ⟨[], []⟩ "out") none ∧
    "out" ∈ (mkdirFS (⟨[], []⟩ : FS) "out").dirs ∧
    ("out" ∉ (⟨[], []⟩ : FS).dirs →
      (mkdirFS (⟨[], []⟩ : FS) "out").dirs = "out" :: (⟨[], []⟩ : FS).dirs) ∧
    ∀ (fs2 : FS) (p2 : Path) (rr2 : Bool),
      "out" ∈ (move_output_file fs2 p2 "out" "u1" rr2).fs.dirs) :=
  ⟨by simp, move_output_file_mkdir_before_check ⟨[], []⟩ ⟨"", "tts_output.wav"⟩
    "out" "u1" false (by simp)⟩

/-- Claim C5: in train mode, a word count exceeding the dictionary size makes
the very first text sampling raise, so the run fails with no synthesis
attempt executed (empty job list, error flag set, random stream untouched). -/
theorem train_mode_overdraw_fails (g : Nat → Nat) (words : List String)
    (word_count shots : Nat) (pool : List String)
    (hover : words.length < word_count) (hpool : pool ≠ []) (hshots : 0 < shots) :
    train_mode g words word_count shots 0 pool = ([], 0, false) := by
  match pool, hpool with
  | wav_file :: rest, _ =>
    match shots, hshots with
    | s + 1, _ =>
      have hgen : generate_random_text g 0 words word_count = none := by
        unfold generate_random_text
        rw [if_neg (by omega)]
      simp [train_mode, train_shots, hgen]

/-- Witness for C5: two dictionary words, five requested. -/
theorem train_mode_overdraw_fails_witness :
    (["w1\n", "w2\n"] : List String).length < 5 ∧ (["a"] : List String) ≠ [] ∧
    0 < 3 ∧
    train_mode (fun n => n) ["w1\n", "w2\n"] 5 3 0 ["a"] = ([], 0, false) :=
  ⟨by decide, by decide, by decide,
    train_mode_overdraw_fails (fun n => n) ["w1\n", "w2\n"] 5 3 ["a"]
      (by decide) (by decide) (by decide)⟩

/-- A subperm is preserved by mapping. -/
theorem subperm_map {α β : Type} (f : α → β) {l₁ l₂ : List α}
    (h : l₁.Subperm l₂) : (l₁.map f).Subperm (l₂.map f) := by
  obtain ⟨u, hu, hsub⟩ := h
  exact ⟨u.map f, hu.map f, hsub.map f⟩

/-- Claim C4: with `N ≤ W`, `generate_random_text` produces exactly `N`
space-joined tokens drawn without replacement from the (stripped) words of
the file, in sample order; when the stripped words are pairwise distinct the
tokens are too. -/
theorem generate_random_text_tokens (g : Nat → Nat) (c : Nat)
    (words : List String) (word_count : Nat)
    (hcount : word_count ≤ words.length) :
    ∃ tokens : List String,
      generate_random_text g c words word_count
        = some (String.intercalate " " tokens) ∧
      tokens.length = word_count ∧
      tokens.Subperm (words.map String.trim) ∧
      ((words.map String.trim).Nodup → tokens.Nodup) := by
  refine ⟨(randSample g c word_count words).map String.trim, ?_, ?_, ?_, ?_⟩
  · unfold generate_random_text
    rw [if_pos hcount]
  · rw [List.length_map, randSample_length g word_count c words hcount]
  · exact subperm_map String.trim (randSample_subperm g word_count c words hcount)
  · intro hnd
    obtain ⟨u, hu, hsub⟩ :=
      subperm_map String.trim (randSample_subperm g word_count c words hcount)
    exact hu.nodup (hnd.sublist hsub)

/-- Witness for C4: sampling two of three words. -/
theorem generate_random_text_tokens_witness :
    2 ≤ (["alpha\n", "beta\n", "gamma\n"] : List String).length ∧
    ∃ tokens : List String,
      generate_random_text (fun n => n + 2) 0 ["alpha\n", "beta\n", "gamma\n"] 2
        = some (String.intercalate " " tokens) ∧
      tokens.length = 2 ∧
      tokens.Subperm ((["alpha\n", "beta\n", "gamma\n"] : List String).map
        String.trim) ∧
      (((["alpha\n", "beta\n", "gamma\n"] : List String).map String.trim).Nodup →
        tokens.Nodup) :=
  ⟨by decide,
    generate_random_text_tokens (fun n => n + 2) 0 ["alpha\n", "beta\n", "gamma\n"]
      2 (by decide)⟩

/-- Erasing a path that lies outside directory `d` does not change the
directory-`d` slice of a file list. -/
theorem filter_dir_erase (l : List Path) (a : Path) (d : String)
    (h : a.dir ≠ d) :
    (l.erase a).filter (fun q => q.dir == d) = l.filter (fun q => q.dir == d) := by
  induction l with
  | nil => rfl
  | cons x xs ih =>
    rw [List.erase_cons]
    split
    · next heq =>
      have hx : x = a := by simpa using heq
      subst hx
      rw [List.filter_cons_of_neg (by simpa using h)]
    · simp only [List.filter_cons]
      rw [ih]

/-- Claim C7: `move_output_file` case analysis. With an existing source and a
working `os.rename`, the file is renamed to the fresh `uuid4` name inside the
destination directory (the destination gains exactly that one file, whose
name differs from the source's name given `uuid4` freshness) and the new
path is returned. A missing source yields the absence signal (after logging).
A raising `os.rename` is logged and re-raised, never swallowed. -/
theorem move_output_file_cases (fs : FS) (output_path : Path)
    (output_wav_dir fresh : String) (renameRaises : Bool)
    (hfreshfile : (⟨output_wav_dir, fresh ++ ".wav"⟩ : Path) ∉ fs.files)
    (hfreshname : fresh ++ ".wav" ≠ output_path.name)
    (hodir : output_path.dir ≠ output_wav_dir) :
    (output_path ∈ fs.files → renameRaises = false →
      move_output_file fs output_path output_wav_dir fresh renameRaises
        = .ok ⟨(mkdirFS fs output_wav_dir).dirs,
            (⟨output_wav_dir, fresh ++ ".wav"⟩ : Path) ::
              fs.files.erase output_path⟩
            (some ⟨output_wav_dir, fresh ++ ".wav"⟩) ∧
      filesInDir
          ⟨(mkdirFS fs output_wav_dir).dirs,
            (⟨output_wav_dir, fresh ++ ".wav"⟩ : Path) ::
              fs.files.erase output_path⟩ output_wav_dir
        = (⟨output_wav_dir, fresh ++ ".wav"⟩ : Path) ::
            filesInDir fs output_wav_dir ∧
      (⟨output_wav_dir, fresh ++ ".wav"⟩ : Path).name ≠ output_path.name ∧
      (⟨output_wav_dir, fresh ++ ".wav"⟩ : Path) ∉ fs.files) ∧
    (output_path ∉ fs.files →
      move_output_file fs output_path output_wav_dir fresh renameRaises
        = .ok (mkdirFS fs output_wav_dir) none) ∧
    (output_path ∈ fs.files → renameRaises = true →
      move_output_file fs output_path output_wav_dir fresh renameRaises
        = .err (mkdirFS fs output_wav_dir)) := by
  refine ⟨fun hmem hrr => ⟨?_, ?_, hfreshname, hfreshfile⟩, fun hnot => ?_, fun hmem hrr => ?_⟩
  · subst hrr
    unfold move_output_file
    rw [mkdirFS_files, if_pos hmem, if_neg (by simp)]
  · unfold filesInDir
    rw [List.filter_cons_of_pos (by simp)]
    rw [filter_dir_erase fs.files output_path output_wav_dir hodir]
  · unfold move_output_file
    rw [mkdirFS_files, if_neg hnot]
  · subst hrr
    unfold move_output_file
    rw [mkdirFS_files, if_pos hmem, if_pos rfl]

/-- Witness for C7 at a concrete filesystem and fresh name. -/
theorem move_output_file_cases_witness :
    ((⟨"out", "u1.wav"⟩ : Path) ∉
        (⟨[], [⟨"", "tts_output.wav"⟩]⟩ : FS).files) ∧
    ("u1" ++ ".wav" ≠ (⟨"", "tts_output.wav"⟩ : Path).name) ∧
    ((⟨"", "tts_output.wav"⟩ : Path).dir ≠ "out") ∧
    (((⟨"", "tts_output.wav"⟩ : Path) ∈
        (⟨[], [⟨"", "tts_output.wav"⟩]⟩ : FS).files → false = false →
      move_output_file ⟨[], [⟨"", "tts_output.wav"⟩]⟩ ⟨"", "tts_output.wav"⟩
          "out" "u1" false
        = .ok ⟨(mkdirFS ⟨[], [⟨"", "tts_output.wav"⟩]⟩ "out").dirs,
            (⟨"out", "u1" ++ ".wav"⟩ : Path) ::
              (⟨[], [⟨"", "tts_output.wav"⟩]⟩ : FS).files.erase
                ⟨"", "tts_output.wav"⟩⟩
            (some ⟨"out", "u1" ++ ".wav"⟩) ∧
      filesInDir
          ⟨(mkdirFS ⟨[], [⟨"", "tts_output.wav"⟩]⟩ "out").dirs,
            (⟨"out", "u1" ++ ".wav"⟩ : Path) ::
              (⟨[], [⟨"", "tts_output.wav"⟩]⟩ : FS).files.erase
                ⟨"", "tts_output.wav"⟩⟩ "out"
        = (⟨"out", "u1" ++ ".wav"⟩ : Path) ::
            filesInDir ⟨[], [⟨"", "tts_output.wav"⟩]⟩ "out" ∧
      (⟨"out", "u1" ++ ".wav"⟩ : Path).name ≠ (⟨"", "tts_output.wav"⟩ : Path).name ∧
      (⟨"out", "u1.wav"⟩ : Path) ∉ (⟨[], [⟨"", "tts_output.wav"⟩]⟩ : FS).files) ∧
    ((⟨"", "tts_output.wav"⟩ : Path) ∉
        (⟨[], [⟨"", "tts_output.wav"⟩]⟩ : FS).files →
      move_output_file ⟨[], [⟨"", "tts_output.wav"⟩]⟩ ⟨"", "tts_output.wav"⟩
          "out" "u1" false
        = .ok (mkdirFS ⟨[], [⟨"", "tts_output.wav"⟩]⟩ "out") none) ∧
    ((⟨"", "tts_output.wav"⟩ : Path) ∈
        (⟨[], [⟨"", "tts_output.wav"⟩]⟩ : FS).files → false = true →
      move_output_file ⟨[], [⟨"", "tts_output.wav"⟩]⟩ ⟨"", "tts_output.wav"⟩
          "out" "u1" false
        = .err (mkdirFS ⟨[], [⟨"", "tts_output.wav"⟩]⟩ "out"))) :=
  ⟨by decide, by decide, by decide,
    move_output_file_cases ⟨[], [⟨"", "tts_output.wav"⟩]⟩ ⟨"", "tts_output.wav"⟩
      "out" "u1" false (by decide) (by decide) (by decide)⟩

/-- Claim C6: on exit code `0` the invoker returns the configured output
path; on a nonzero exit code it returns the absence signal, the job changes
no file (the filesystem is untouched), and the batch driver still runs the
remaining jobs with neither an abort nor a retry (the failed job contributes
exactly one `none` result). -/
theorem run_tts_failure_skips_job (fs : FS) (config : TTSConfig)
    (output_wav_dir fresh : String) (renameRaises : Bool) (exitCode : Nat)
    (rest : List JobRun) (hfail : exitCode ≠ 0) :
    run_tts_command config 0 = some config.out_path ∧
    run_tts_command config exitCode = none ∧
    process_wav_file fs config output_wav_dir exitCode fresh renameRaises
      = .ok fs none ∧
    (∀ (fs2 : FS) (results : List (Option Path)),
      run_batch output_wav_dir fs rest = .ok fs2 results →
      run_batch output_wav_dir fs
          (⟨config, exitCode, fresh, renameRaises⟩ :: rest)
        = .ok fs2 (none :: results)) ∧
    (∀ (fs2 : FS) (results : List (Option Path)),
      run_batch output_wav_dir fs rest = .err fs2 results →
      run_batch output_wav_dir fs
          (⟨config, exitCode, fresh, renameRaises⟩ :: rest)
        = .err fs2 (none :: results)) := by
  have hnone : run_tts_command config exitCode = none := by
    unfold run_tts_command
    rw [if_neg hfail]
  have hexec : tts_exec fs config exitCode = fs := by
    unfold tts_exec
    rw [if_neg hfail]
  have hproc : process_wav_file fs config output_wav_dir exitCode fresh
      renameRaises = .ok fs none := by
    unfold process_wav_file
    rw [hnone, hexec]
  refine ⟨by unfold run_tts_command; rw [if_pos rfl], hnone, hproc, ?_, ?_⟩
  · intro fs2 results h
    simp only [run_batch, hproc, h]
  · intro fs2 results h
    simp only [run_batch, hproc, h]

/-- Witness for C6: a failing job (exit code 1) followed by a succeeding one. -/
theorem run_tts_failure_skips_job_witness :
    (1 : Nat) ≠ 0 ∧
    (run_tts_command ⟨"m", "en", "cpu", none, [], false, ⟨"", "tts_output.wav"⟩,
        none, none⟩ 0
      = some (⟨"m", "en", "cpu", none, [], false, ⟨"", "tts_output.wav"⟩,
        none, none⟩ : TTSConfig).out_path ∧
    run_tts_command ⟨"m", "en", "cpu", none, [], false, ⟨"", "tts_output.wav"⟩,
        none, none⟩ 1 = none ∧
    process_wav_file ⟨[], []⟩ ⟨"m", "en", "cpu", none, [], false,
        ⟨"", "tts_output.wav"⟩, none, none⟩ "out" 1 "u1" false
      = .ok ⟨[], []⟩ none ∧
    (∀ (fs2 : FS) (results : List (Option Path)),
      run_batch "out" ⟨[], []⟩
          [⟨⟨"m", "en", "cpu", none, [], false, ⟨"", "tts_output.wav"⟩,
            none, none⟩, 0, "u2", false⟩] = .ok fs2 results →
      run_batch "out" ⟨[], []⟩
          (⟨⟨"m", "en", "cpu", none, [], false, ⟨"", "tts_output.wav"⟩,
            none, none⟩, 1, "u1", false⟩ ::
          [⟨⟨"m", "en", "cpu", none, [], false, ⟨"", "tts_output.wav"⟩,
            none, none⟩, 0, "u2", false⟩])
        = .ok fs2 (none :: results)) ∧
    (∀ (fs2 : FS) (results : List (Option Path)),
      run_batch "out" ⟨[], []⟩
          [⟨⟨"m", "en", "cpu", none, [], false, ⟨"", "tts_output.wav"⟩,
            none, none⟩, 0, "u2", false⟩] = .err fs2 results →
      run_batch "out" ⟨[], []⟩
          (⟨⟨"m", "en", "cpu", none, [], false, ⟨"", "tts_output.wav"⟩,
            none, none⟩, 1, "u1", false⟩ ::
          [⟨⟨"m", "en", "cpu", none, [], false, ⟨"", "tts_output.wav"⟩,
            none, none⟩, 0, "u2", false⟩])
        = .err fs2 (none :: results))) :=
  ⟨by decide,
    run_tts_failure_skips_job ⟨[], []⟩ ⟨"m", "en", "cpu", none, [], false,
        ⟨"", "tts_output.wav"⟩, none, none⟩ "out" "u1" false 1
      [⟨⟨"m", "en", "cpu", none, [], false, ⟨"", "tts_output.wav"⟩,
        none, none⟩, 0, "u2", false⟩] (by decide)⟩

/-- The optional flag names of the `tts` invocation. -/
def flagNames : List String :=
  ["--vocoder_name", "--speaker_wav", "--use_cuda", "--source_wav", "--target_wav"]

/-- The non-flag strings a built command can carry: the configuration's
value fields, the quoted text, and the speaker paths. -/
def cmdValues (config : TTSConfig) (text : String) : List String :=
  [config.model_name, quoteText text, config.language_idx,
    pathStr config.out_path, config.device, config.vocoder_name.getD "",
    config.source_wav.getD "", config.target_wav.getD ""]
  ++ config.speaker_wav

theorem count_pair_self (f v : String) (hv : v ≠ f) : List.count f [f, v] = 1 := by
  simp [List.count_cons, hv]

theorem count_pair_ne (f flag v : String) (hflag : flag ≠ f) (hv : v ≠ f) :
    List.count f [flag, v] = 0 := by
  simp [List.count_cons, hflag, hv]

theorem count_speaker_flatMap (l : List String)
    (h : ∀ w ∈ l, w ≠ "--speaker_wav") :
    List.count "--speaker_wav" (l.flatMap fun wav => ["--speaker_wav", wav])
      = l.length := by
  induction l with
  | nil => rfl
  | cons x xs ih =>
    rw [List.flatMap_cons, List.count_append,
      ih (fun w hw => h w (List.mem_cons_of_mem _ hw)),
      count_pair_self _ _ (h x (List.mem_cons_self _ _))]
    simp [Nat.add_comm]

theorem count_flag_flatMap_ne (l : List String) (f : String)
    (hf : f ≠ "--speaker_wav") (h : ∀ w ∈ l, w ≠ f) :
    List.count f (l.flatMap fun wav => ["--speaker_wav", wav]) = 0 := by
  rw [List.count_eq_zero]
  intro hmem
  rw [List.mem_flatMap] at hmem
  obtain ⟨w, hw, hmem2⟩ := hmem
  simp only [List.mem_cons, List.not_mem_nil, or_false] at hmem2
  rcases hmem2 with h1 | h2
  · exact hf h1
  · exact h w hw h2.symm
theorem count_base_zero (config : TTSConfig) (text : String) (f : String)
    (hf1 : f ≠ "tts") (hf2 : f ≠ "--model_name") (hf3 : f ≠ "--text")
    (hf4 : f ≠ "--language_idx") (hf5 : f ≠ "--out_path") (hf6 : f ≠ "--device")
    (hm : config.model_name ≠ f) (hq : quoteText text ≠ f)
    (hl : config.language_idx ≠ f) (ho : pathStr config.out_path ≠ f)
    (hd : config.device ≠ f) :
    List.count f ["tts", "--model_name", config.model_name, "--text",
      quoteText text, "--language_idx", config.language_idx, "--out_path",
      pathStr config.out_path, "--device", config.device] = 0 := by
  rw [List.count_eq_zero]
  intro hmem
  simp only [List.mem_cons, List.not_mem_nil, or_false] at hmem
  rcases hmem with h|h|h|h|h|h|h|h|h|h|h
  · exact hf1 h
  · exact hf2 h
  · exact hm h.symm
  · exact hf3 h
  · exact hq h.symm
  · exact hf4 h
  · exact hl h.symm
  · exact hf5 h
  · exact ho h.symm
  · exact hf6 h
  · exact hd h.symm

theorem run_tts_command_arglist (config : TTSConfig) (text : String)
    (hff : ∀ s ∈ cmdValues config text, ∀ f ∈ flagNames, s ≠ f) :
    (build_command config text).take 11
      = ["tts", "--model_name", config.model_name, "--text", quoteText text,
          "--language_idx", config.language_idx, "--out_path",
          pathStr config.out_path, "--device", config.device] ∧
    List.count "--vocoder_name" (build_command config text)
      = (if optTruthy config.vocoder_name then 1 else 0) ∧
    List.count "--speaker_wav" (build_command config text)
      = config.speaker_wav.length ∧
    List.count "--use_cuda" (build_command config text)
      = (if config.use_cuda then 1 else 0) ∧
    List.count "--source_wav" (build_command config text)
      = (if optTruthy config.source_wav then 1 else 0) ∧
    List.count "--target_wav" (build_command config text)
      = (if optTruthy config.target_wav then 1 else 0) := by
  have hvals : ∀ f ∈ flagNames,
      config.model_name ≠ f ∧ quoteText text ≠ f ∧ config.language_idx ≠ f ∧
      pathStr config.out_path ≠ f ∧ config.device ≠ f ∧
      config.vocoder_name.getD "" ≠ f ∧ config.source_wav.getD "" ≠ f ∧
      config.target_wav.getD "" ≠ f := by
    intro f hf
    refine ⟨hff _ ?_ f hf, hff _ ?_ f hf, hff _ ?_ f hf, hff _ ?_ f hf,
      hff _ ?_ f hf, hff _ ?_ f hf, hff _ ?_ f hf, hff _ ?_ f hf⟩ <;>
        simp [cmdValues]
  have hspk : ∀ w ∈ config.speaker_wav, ∀ f ∈ flagNames, w ≠ f := fun w hw =>
    hff w (by simp [cmdValues, hw])
  obtain ⟨hvm, hvq, hvl, hvo, hvd, hvv, hvs, hvt⟩ := hvals "--vocoder_name" (by decide)
  obtain ⟨hwm, hwq, hwl, hwo, hwd, hwv, hws, hwt⟩ := hvals "--speaker_wav" (by decide)
  obtain ⟨hcm, hcq, hcl, hco, hcd, hcv, hcs, hct⟩ := hvals "--use_cuda" (by decide)
  obtain ⟨hsm, hsq, hsl, hsov, hsd, hsv, hss, hst⟩ := hvals "--source_wav" (by decide)
  obtain ⟨htm, htq, htl, hto, htd, htv, hts, htt⟩ := hvals "--target_wav" (by decide)
  have hspkv : ∀ w ∈ config.speaker_wav, w ≠ "--vocoder_name" := fun w hw =>
    hspk w hw _ (by decide)
  have hspkw : ∀ w ∈ config.speaker_wav, w ≠ "--speaker_wav" := fun w hw =>
    hspk w hw _ (by decide)
  have hspkc : ∀ w ∈ config.speaker_wav, w ≠ "--use_cuda" := fun w hw =>
    hspk w hw _ (by decide)
  have hspks : ∀ w ∈ config.speaker_wav, w ≠ "--source_wav" := fun w hw =>
    hspk w hw _ (by decide)
  have hspkt : ∀ w ∈ config.speaker_wav, w ≠ "--target_wav" := fun w hw =>
    hspk w hw _ (by decide)
  have hassoc : build_command config text
      = ["tts", "--model_name", config.model_name, "--text", quoteText text,
          "--language_idx", config.language_idx, "--out_path",
          pathStr config.out_path, "--device", config.device]
        ++ ((if optTruthy config.vocoder_name then
              ["--vocoder_name", config.vocoder_name.getD ""] else [])
          ++ ((if config.speaker_wav.isEmpty then []
              else config.speaker_wav.flatMap fun wav => ["--speaker_wav", wav])
            ++ ((if config.use_cuda then ["--use_cuda"] else [])
              ++ ((if optTruthy config.source_wav then
                    ["--source_wav", config.source_wav.getD ""] else [])
                ++ (if optTruthy config.target_wav then
                    ["--target_wav", config.target_wav.getD ""] else []))))) := by
    simp [build_command, List.append_assoc]
  refine ⟨?_, ?_, ?_, ?_, ?_, ?_⟩
  · rw [hassoc]
    have h11 : (["tts", "--model_name", config.model_name, "--text",
        quoteText text, "--language_idx", config.language_idx, "--out_path",
        pathStr config.out_path, "--device", config.device] : List String).length
        = 11 := rfl
    rw [← h11]
    exact List.take_left _ _
  · rw [hassoc]
    simp only [List.count_append, apply_ite (List.count "--vocoder_name"),
      List.count_nil]
    rw [count_base_zero config text "--vocoder_name" (by decide) (by decide)
      (by decide) (by decide) (by decide) (by decide) hvm hvq hvl hvo hvd]
    rw [count_pair_self _ _ hvv]
    rw [count_flag_flatMap_ne _ _ (by decide) hspkv]
    rw [count_pair_ne _ _ _ (by decide) hvs]
    rw [count_pair_ne _ _ _ (by decide) hvt]
    have hcub : List.count "--vocoder_name" ["--use_cuda"] = 0 := by decide
    rw [hcub]
    simp
  · rw [hassoc]
    simp only [List.count_append, apply_ite (List.count "--speaker_wav"),
      List.count_nil]
    rw [count_base_zero config text "--speaker_wav" (by decide) (by decide)
      (by decide) (by decide) (by decide) (by decide) hwm hwq hwl hwo hwd]
    rw [count_pair_ne _ _ _ (by decide) hwv]
    rw [count_speaker_flatMap _ hspkw]
    rw [count_pair_ne _ _ _ (by decide) hws]
    rw [count_pair_ne _ _ _ (by decide) hwt]
    have hcub : List.count "--speaker_wav" ["--use_cuda"] = 0 := by decide
    rw [hcub]
    cases hE : config.speaker_wav.isEmpty
    · simp [hE]
    · have hnil : config.speaker_wav = [] := by
        cases hsp : config.speaker_wav
        · rfl
        · rw [hsp] at hE
          simp [List.isEmpty] at hE
      simp [hE, hnil]
  · rw [hassoc]
    simp only [List.count_append, apply_ite (List.count "--use_cuda"),
      List.count_nil]
    rw [count_base_zero config text "--use_cuda" (by decide) (by decide)
      (by decide) (by decide) (by decide) (by decide) hcm hcq hcl hco hcd]
    rw [count_pair_ne _ _ _ (by decide) hcv]
    rw [count_flag_flatMap_ne _ _ (by decide) hspkc]
    rw [count_pair_ne _ _ _ (by decide) hcs]
    rw [count_pair_ne _ _ _ (by decide) hct]
    have hcub : List.count "--use_cuda" ["--use_cuda"] = 1 := by decide
    rw [hcub]
    simp
  · rw [hassoc]
    simp only [List.count_append, apply_ite (List.count "--source_wav"),
      List.count_nil]
    rw [count_base_zero config text "--source_wav" (by decide) (by decide)
      (by decide) (by decide) (by decide) (by decide) hsm hsq hsl hsov hsd]
    rw [count_pair_ne _ _ _ (by decide) hsv]
    rw [count_flag_flatMap_ne _ _ (by decide) hspks]
    rw [count_pair_self _ _ hss]
    rw [count_pair_ne _ _ _ (by decide) hst]
    have hcub : List.count "--source_wav" ["--use_cuda"] = 0 := by decide
    rw [hcub]
    simp
  · rw [hassoc]
    simp only [List.count_append, apply_ite (List.count "--target_wav"),
      List.count_nil]
    rw [count_base_zero config text "--target_wav" (by decide) (by decide)
      (by decide) (by decide) (by decide) (by decide) htm htq htl hto htd]
    rw [count_pair_ne _ _ _ (by decide) htv]
    rw [count_flag_flatMap_ne _ _ (by decide) hspkt]
    rw [count_pair_ne _ _ _ (by decide) hts]
    rw [count_pair_self _ _ htt]
    have hcub : List.count "--target_wav" ["--use_cuda"] = 0 := by decide
    rw [hcub]
    simp

/-- Witness for C3 on a fully populated configuration. -/
theorem run_tts_command_arglist_witness :
    (∀ s ∈ cmdValues ⟨"m", "en", "cpu", some "voc", ["s1", "s2"], true,
        ⟨"", "o.wav"⟩, some "src", some "tgt"⟩ "hello",
      ∀ f ∈ flagNames, s ≠ f) ∧
    ((build_command ⟨"m", "en", "cpu", some "voc", ["s1", "s2"], true,
        ⟨"", "o.wav"⟩, some "src", some "tgt"⟩ "hello").take 11
      = ["tts", "--model_name",
          (⟨"m", "en", "cpu", some "voc", ["s1", "s2"], true, ⟨"", "o.wav"⟩,
            some "src", some "tgt"⟩ : TTSConfig).model_name, "--text",
          quoteText "hello", "--language_idx",
          (⟨"m", "en", "cpu", some "voc", ["s1", "s2"], true, ⟨"", "o.wav"⟩,
            some "src", some "tgt"⟩ : TTSConfig).language_idx, "--out_path",
          pathStr (⟨"m", "en", "cpu", some "voc", ["s1", "s2"], true,
            ⟨"", "o.wav"⟩, some "src", some "tgt"⟩ : TTSConfig).out_path,
          "--device",
          (⟨"m", "en", "cpu", some "voc", ["s1", "s2"], true, ⟨"", "o.wav"⟩,
            some "src", some "tgt"⟩ : TTSConfig).device] ∧
    List.count "--vocoder_name" (build_command ⟨"m", "en", "cpu", some "voc",
        ["s1", "s2"], true, ⟨"", "o.wav"⟩, some "src", some "tgt"⟩ "hello")
      = (if optTruthy (some "voc") then 1 else 0) ∧
    List.count "--speaker_wav" (build_command ⟨"m", "en", "cpu", some "voc",
        ["s1", "s2"], true, ⟨"", "o.wav"⟩, some "src", some "tgt"⟩ "hello")
      = (["s1", "s2"] : List String).length ∧
    List.count "--use_cuda" (build_command ⟨"m", "en", "cpu", some "voc",
        ["s1", "s2"], true, ⟨"", "o.wav"⟩, some "src", some "tgt"⟩ "hello")
      = (if (true : Bool) then 1 else 0) ∧
    List.count "--source_wav" (build_command ⟨"m", "en", "cpu", some "voc",
        ["s1", "s2"], true, ⟨"", "o.wav"⟩, some "src", some "tgt"⟩ "hello")
      = (if optTruthy (some "src") then 1 else 0) ∧
    List.count "--target_wav" (build_command ⟨"m", "en", "cpu", some "voc",
        ["s1", "s2"], true, ⟨"", "o.wav"⟩, some "src", some "tgt"⟩ "hello")
      = (if optTruthy (some "tgt") then 1 else 0)) :=
  ⟨by decide,
    run_tts_command_arglist ⟨"m", "en", "cpu", some "voc", ["s1", "s2"], true,
      ⟨"", "o.wav"⟩, some "src", some "tgt"⟩ "hello" (by decide)⟩
theorem length_flatMap_const {α β : Type} (l : List α) (f : α → List β)
    (m : Nat) (h : ∀ a, (f a).length = m) :
    (l.flatMap f).length = l.length * m := by
  induction l with
  | nil => simp
  | cons x xs ih =>
    rw [List.flatMap_cons, List.length_append, h, ih, List.length_cons,
      Nat.succ_mul, Nat.add_comm]

theorem mergedJobs_spec (g : Nat → Nat) (min_merge max_merge : Nat)
    (text : String) (pool : List String) (hmm : min_merge ≤ max_merge)
    (hmp : min_merge ≤ pool.length) :
    ∀ (s c : Nat), ∃ ms : List Job,
      mergedJobs g min_merge max_merge text pool c s = some ms ∧
      ms.length = s ∧
      ∀ j ∈ ms, j.text = text ∧ min_merge ≤ j.speaker_wav.length ∧
        j.speaker_wav.length ≤ min max_merge pool.length ∧
        ∀ w ∈ j.speaker_wav, w ∈ pool := by
  intro s
  induction s with
  | zero => intro c; exact ⟨[], rfl, rfl, by simp⟩
  | succ s ih =>
    intro c
    obtain ⟨ms, hms, hlen, hprop⟩ :=
      ih (c + 1 + min (min_merge + g c % (max_merge + 1 - min_merge)) pool.length)
    have hri : randint min_merge max_merge (g c)
        = some (min_merge + g c % (max_merge + 1 - min_merge)) := by
      unfold randint
      rw [if_pos hmm]
    refine ⟨⟨randSample g (c + 1)
        (min (min_merge + g c % (max_merge + 1 - min_merge)) pool.length) pool,
      text⟩ :: ms, ?_, ?_, ?_⟩
    · simp only [mergedJobs, hri]
      rw [hms]
    · simp [hlen]
    · intro j hj
      rcases List.mem_cons.mp hj with hj1 | hj1
    
      · subst hj1
        have hkle : min (min_merge + g c % (max_merge + 1 - min_merge))
            pool.length ≤ pool.length := Nat.min_le_right _ _
        have hnum_le : min_merge + g c % (max_merge + 1 - min_merge)
            ≤ max_merge := by
          have hmod := Nat.mod_lt (g c)
            (show 0 < max_merge + 1 - min_merge by omega)
          omega
        have hlen2 := randSample_length g _ (c + 1) pool hkle
        refine ⟨rfl, ?_, ?_, ?_⟩
        · rw [hlen2]
          exact Nat.le_min.mpr ⟨Nat.le_add_right _ _, hmp⟩
        · rw [hlen2]
          exact min_le_min hnum_le (Nat.le_refl _)
        · intro w hw
          exact (randSample_subperm g _ (c + 1) pool hkle).subset hw
      · exact hprop j hj1

/-- Claim C1: generate mode runs, in order, exactly `shots` single-speaker
jobs per pool file (each with that one file as the speaker list and the fixed
operator text) followed by exactly `shots` merged-voice jobs, each of whose
speaker lists is drawn from the pool with size between `min_merge` and
`min(max_merge, pool size)`; in total `P * S + S` synthesis attempts. -/
theorem generate_mode_job_structure (g : Nat → Nat) (shots min_merge max_merge : Nat)
    (text : String) (pool : List String)
    (hmm : min_merge ≤ max_merge) (hmp : min_merge ≤ pool.length) :
    ∃ jobs : List Job,
      generate_mode g shots min_merge max_merge text pool = some jobs ∧
      jobs.length = pool.length * shots + shots ∧
      jobs.take (pool.length * shots)
        = pool.flatMap (fun wav_file => List.replicate shots ⟨[wav_file], text⟩) ∧
      (jobs.drop (pool.length * shots)).length = shots ∧
      ∀ j ∈ jobs.drop (pool.length * shots),
        j.text = text ∧ min_merge ≤ j.speaker_wav.length ∧
        j.speaker_wav.length ≤ min max_merge pool.length ∧
        ∀ w ∈ j.speaker_wav, w ∈ pool := by
  obtain ⟨ms, hms, hlen, hprop⟩ :=
    mergedJobs_spec g min_merge max_merge text pool hmm hmp shots 0
  have hsl : (pool.flatMap fun wav_file =>
      List.replicate shots (⟨[wav_file], text⟩ : Job)).length
      = pool.length * shots :=
    length_flatMap_const _ _ _ (fun a => List.length_replicate _ _)
  refine ⟨(pool.flatMap fun wav_file => List.replicate shots ⟨[wav_file], text⟩)
    ++ ms, ?_, ?_, ?_, ?_, ?_⟩
  · unfold generate_mode
    rw [hms]
  · rw [List.length_append, hsl, hlen]
  · rw [← hsl]
    exact List.take_left _ _
  · rw [← hsl, List.drop_left, hlen]
  · rw [← hsl, List.drop_left]
    exact hprop

theorem train_shots_spec (g : Nat → Nat) (words : List String)
    (word_count : Nat) (wav_file : String) (h : word_count ≤ words.length) :
    ∀ (s c : Nat), train_shots g words word_count wav_file c s
      = ((List.range s).map (fun i =>
          ⟨[wav_file], trainTextAt g words word_count (c + i * word_count)⟩),
        c + s * word_count, true) := by
  intro s
  induction s with
  | zero => intro c; simp [train_shots]
  | succ s ih =>
    intro c
    have hgen : generate_random_text g c words word_count
        = some (trainTextAt g words word_count c) := by
      unfold generate_random_text trainTextAt
      rw [if_pos h]
    simp only [train_shots, hgen, ih (c + word_count)]
    refine Prod.ext ?_ (Prod.ext ?_ rfl)
    · dsimp only
      rw [List.range_succ_eq_map, List.map_cons, List.map_map]
      congr 1
      · congr 2
        omega
      · congr 1
        funext i
        simp only [Function.comp_apply]
        congr 2
        simp only [Nat.succ_eq_add_one]
        ring
    · dsimp only
      ring
theorem train_mode_spec (g : Nat → Nat) (words : List String)
    (word_count shots : Nat) (h : word_count ≤ words.length) :
    ∀ (pool : List String) (c : Nat),
      train_mode g words word_count shots c pool
        = ((List.range pool.length).flatMap (fun p =>
            (List.range shots).map (fun s =>
              ⟨[pool.getD p ""], trainTextAt g words word_count
                (c + (p * shots + s) * word_count)⟩)),
          c + pool.length * shots * word_count, true) := by
  intro pool
  induction pool with
  | nil => intro c; simp [train_mode]
  | cons wav_file rest ih =>
    intro c
    have h1 := train_shots_spec g words word_count wav_file h shots c
    have h2 := ih (c + shots * word_count)
    simp only [train_mode, h1, h2]
    rw [if_pos trivial]
    refine Prod.ext ?_ (Prod.ext ?_ rfl)
    · dsimp only
      rw [List.length_cons, List.range_succ_eq_map, List.flatMap_cons,
        List.flatMap_map]
      congr 1
      · congr 1
        funext i
        congr 2
        ring
      · congr 1
        funext p
        congr 1
        funext s
        congr 2
        simp only [Nat.succ_eq_add_one]
        ring
    · dsimp only
      rw [List.length_cons]
      ring
/-- Claim C2: in train mode every pool file gets exactly `shots` jobs
(`P * S` attempts in all), and the job for speaker `p`, shot `s` samples its
text afresh from stream position `(p * shots + s) * word_count`: a separate
`generate_random_text` call consuming its own `word_count` random draws, not
a text shared across a speaker's shots. -/
theorem train_mode_fresh_texts (g : Nat → Nat) (words : List String)
    (word_count shots : Nat) (pool : List String)
    (h : word_count ≤ words.length) :
    train_mode g words word_count shots 0 pool
      = ((List.range pool.length).flatMap (fun p =>
          (List.range shots).map (fun s =>
            ⟨[pool.getD p ""], trainTextAt g words word_count
              ((p * shots + s) * word_count)⟩)),
        pool.length * shots * word_count, true) ∧
    ((List.range pool.length).flatMap (fun p =>
      (List.range shots).map (fun s =>
        (⟨[pool.getD p ""], trainTextAt g words word_count
          ((p * shots + s) * word_count)⟩ : Job)))).length
      = pool.length * shots := by
  constructor
  · have hspec := train_mode_spec g words word_count shots h pool 0
    simpa using hspec
  · have hlen := length_flatMap_const (List.range pool.length)
      (fun p => (List.range shots).map (fun s =>
        (⟨[pool.getD p ""], trainTextAt g words word_count
          ((p * shots + s) * word_count)⟩ : Job))) shots
      (fun p => by rw [List.length_map, List.length_range])
    rw [List.length_range] at hlen
    exact hlen

/-- Witness for C2: pool of two speakers, three shots, six attempts. -/
theorem train_mode_fresh_texts_witness :
    1 ≤ (["x\n", "y\n"] : List String).length ∧
    (train_mode (fun n => n) ["x\n", "y\n"] 1 3 0 ["a", "b"]
      = ((List.range (["a", "b"] : List String).length).flatMap (fun p =>
          (List.range 3).map (fun s =>
            ⟨[(["a", "b"] : List String).getD p ""],
              trainTextAt (fun n => n) ["x\n", "y\n"] 1 ((p * 3 + s) * 1)⟩)),
        (["a", "b"] : List String).length * 3 * 1, true) ∧
    ((List.range (["a", "b"] : List String).length).flatMap (fun p =>
      (List.range 3).map (fun s =>
        (⟨[(["a", "b"] : List String).getD p ""],
          trainTextAt (fun n => n) ["x\n", "y\n"] 1 ((p * 3 + s) * 1)⟩ : Job)))).length
      = (["a", "b"] : List String).length * 3) :=
  ⟨by decide,
    train_mode_fresh_texts (fun n => n) ["x\n", "y\n"] 1 3 ["a", "b"] (by decide)⟩

/-- Witness for C1: pool of three speakers, two shots, eight attempts. -/
theorem generate_mode_job_structure_witness :
    2 ≤ 7 ∧ 2 ≤ (["a", "b", "c"] : List String).length ∧
    (∃ jobs : List Job,
      generate_mode (fun n => n) 2 2 7 "fixed" ["a", "b", "c"] = some jobs ∧
      jobs.length = (["a", "b", "c"] : List String).length * 2 + 2 ∧
      jobs.take ((["a", "b", "c"] : List String).length * 2)
        = (["a", "b", "c"] : List String).flatMap
            (fun wav_file => List.replicate 2 ⟨[wav_file], "fixed"⟩) ∧
      (jobs.drop ((["a", "b", "c"] : List String).length * 2)).length = 2 ∧
      ∀ j ∈ jobs.drop ((["a", "b", "c"] : List String).length * 2),
        j.text = "fixed" ∧ 2 ≤ j.speaker_wav.length ∧
        j.speaker_wav.length ≤ min 7 (["a", "b", "c"] : List String).length ∧
        ∀ w ∈ j.speaker_wav, w ∈ (["a", "b", "c"] : List String)) :=
  ⟨by decide, by decide,
    generate_mode_job_structure (fun n => n) 2 2 7 "fixed" ["a", "b", "c"]
      (by decide) (by decide)⟩

end Kms
